import Mathlib

/-!
Verification of the taskforge query tokenizer
(`src/tsk_lib/src/query/tokens.rs`).

The file embeds the `Token` data model, the single-character classifier
(`From<char> for Token`), the multi-character classifier
(`From<&'a str> for Token`), the diagnostic rendering
(`Into<String> for Token`) and the `Display` impl, and proves the spec's
claims about them.

The two library parsers the classifier calls — Rust's `str::parse::<f64>`
and chrono's `Local.datetime_from_str` — are not part of this repository's
sources, so they are modelled from the spec's description of them (see the
doc comments on `parseF64` and `datetimeFromStr`).
-/

/-- Value carried by a numeric-literal token.  Rust's `f64` parse can yield
a finite number, a signed infinity, or NaN; a finite value is modelled as
the exact rational the literal denotes (the rounding from decimal to the
nearest binary double is not modelled, as no claim depends on it). -/
inductive FVal
  | num (q : Rat)
  | inf (neg : Bool)
  | nan
deriving DecidableEq, Repr

/-- A date-time literal: chrono's `DateTime<Local>` at minute granularity,
i.e. the naive local calendar date and time of day the lexeme denotes
(all three accepted formats are interpreted in the local zone). -/
structure LDate where
  year : Nat
  month : Nat
  day : Nat
  hour : Nat
  minute : Nat
deriving DecidableEq, Repr

/-- The `Token` enum of `tokens.rs`, variant for variant. -/
inductive Token
  | GT
  | LT
  | GTE
  | LTE
  | EQ
  | NE
  | LIKE
  | NLIKE
  | AND
  | OR
  | LP
  | RP
  | EOF
  | Str (s : String)
  | Float (v : FVal)
  | Date (d : LDate)
  | Unexpected (s : String)
deriving DecidableEq, Repr

/-- The `From<char> for Token` impl: single-character classification. -/
def fromChar (c : Char) : Token :=
  match c with
  | '(' => Token.LP
  | ')' => Token.RP
  | '>' => Token.GT
  | '<' => Token.LT
  | '=' => Token.EQ
  | '^' => Token.LIKE
  | '~' => Token.LIKE
  | _ => Token.Unexpected (String.mk [c])

/-- Leading run of decimal digits of a character list, with the rest. -/
def takeDigits : List Char → (List Char × List Char)
  | [] => ([], [])
  | c :: cs =>
    if c.isDigit then
      let r := takeDigits cs
      (c :: r.1, r.2)
    else ([], c :: cs)

/-- Optional leading `+` or `-`; `true` means negative. -/
def readSign : List Char → (Bool × List Char)
  | '+' :: cs => (false, cs)
  | '-' :: cs => (true, cs)
  | cs => (false, cs)

/-- Numeric value of a digit run (most significant first). -/
def digitsToNat (ds : List Char) : Nat :=
  ds.foldl (fun a c => a * 10 + (c.toNat - '0'.toNat)) 0

/-- Modelled from the spec: Rust's `str::parse::<f64>` (the standard
library's `FromStr for f64`, not part of this repository), which the
classifier tries first.  Per the spec, it accepts "standard decimal
syntax, optional sign, optional fractional part, optional exponent" and
must consume the whole slice; per the standard grammar it also accepts
the case-insensitive special spellings `inf`, `infinity` and `nan`.
The parse fails (`none`) on anything else — in particular on a string of
which only a proper prefix is numeric. -/
def parseF64 (s : String) : Option FVal :=
  let sr := readSign s.data
  let neg := sr.1
  let cs := sr.2
  let low := cs.map Char.toLower
  if low = ['i', 'n', 'f'] ∨ low = "infinity".data then some (FVal.inf neg)
  else if low = ['n', 'a', 'n'] then some FVal.nan
  else
    let ipr := takeDigits cs
    let ip := ipr.1
    let fpr :=
      match ipr.2 with
      | '.' :: r => takeDigits r
      | r => (([] : List Char), r)
    let fp := fpr.1
    if ip = [] ∧ fp = [] then none
    else
      let mantNum : Int := digitsToNat ip * 10 ^ fp.length + digitsToNat fp
      let mantNum : Int := if neg then -mantNum else mantNum
      match fpr.2 with
      | [] => some (FVal.num (mkRat mantNum (10 ^ fp.length)))
      | c :: r3 =>
        if c = 'e' ∨ c = 'E' then
          let er := readSign r3
          let edr := takeDigits er.2
          if edr.1 = [] ∨ edr.2 ≠ [] then none
          else
            let ex : Nat := digitsToNat edr.1
            some (FVal.num
              (if er.1 then mkRat mantNum (10 ^ (fp.length + ex))
               else mkRat (mantNum * 10 ^ ex) (10 ^ fp.length)))
        else none

/-- Exactly `n` decimal digits, accumulating their value onto `acc`. -/
def readDigitsAux : Nat → Nat → List Char → Option (Nat × List Char)
  | 0, acc, cs => some (acc, cs)
  | _ + 1, _, [] => none
  | n + 1, acc, c :: cs =>
    if c.isDigit then readDigitsAux n (acc * 10 + (c.toNat - '0'.toNat)) cs
    else none

/-- One expected literal character. -/
def expectChar (c : Char) : List Char → Option (List Char)
  | [] => none
  | x :: xs => if x = c then some xs else none

/-- Gregorian leap year. -/
def isLeap (y : Nat) : Bool :=
  (y % 4 == 0 && y % 100 != 0) || y % 400 == 0

/-- Days of month `mo` in year `y`. -/
def daysInMonth (y mo : Nat) : Nat :=
  if mo = 2 then (if isLeap y then 29 else 28)
  else if mo = 4 ∨ mo = 6 ∨ mo = 9 ∨ mo = 11 then 30
  else 31

/-- The `%F` part plus the following space: `YYYY-MM-DD `, validated as a
real calendar date. -/
def readYMD (cs : List Char) : Option (Nat × Nat × Nat × List Char) := do
  let (y, c1) ← readDigitsAux 4 0 cs
  let c2 ← expectChar '-' c1
  let (mo, c3) ← readDigitsAux 2 0 c2
  let c4 ← expectChar '-' c3
  let (d, c5) ← readDigitsAux 2 0 c4
  let c6 ← expectChar ' ' c5
  if 1 ≤ mo ∧ mo ≤ 12 ∧ 1 ≤ d ∧ d ≤ daysInMonth y mo then some (y, mo, d, c6)
  else none

/-- An `HH:MM` (or `II:MM`) pair; the hour's range is checked by the caller. -/
def readHM (cs : List Char) : Option (Nat × Nat × List Char) := do
  let (h, c1) ← readDigitsAux 2 0 cs
  let c2 ← expectChar ':' c1
  let (mi, c3) ← readDigitsAux 2 0 c2
  if mi ≤ 59 then some (h, mi, c3) else none

/-- The meridiem marker: `am`/`pm` lowercase, or `AM`/`PM` when `upper`.
`true` means pm. -/
def readMeridiem (upper : Bool) : List Char → Option (Bool × List Char)
  | c1 :: c2 :: r =>
    let a := if upper then 'A' else 'a'
    let p := if upper then 'P' else 'p'
    let m := if upper then 'M' else 'm'
    if c1 = a ∧ c2 = m then some (false, r)
    else if c1 = p ∧ c2 = m then some (true, r)
    else none
  | _ => none

/-- 12-hour clock to 24-hour clock: 12 am is hour 0, 12 pm is hour 12. -/
def hour24Of (h12 : Nat) (pm : Bool) : Nat :=
  if pm then (if h12 = 12 then 12 else h12 + 12)
  else (if h12 = 12 then 0 else h12)

/-- The three date-time format strings of `DATE_FORMATS` in `tokens.rs`:
`"%F %I:%M %P"` (12-hour, lowercase am/pm), `"%F %I:%M %p"` (12-hour,
uppercase AM/PM), `"%F %H:%M"` (24-hour). -/
inductive DFormat
  | amLower
  | amUpper
  | h24
deriving DecidableEq, Repr

/-- The `DATE_FORMATS` array of `tokens.rs`, in its order. -/
def DATE_FORMATS : List DFormat := [DFormat.amLower, DFormat.amUpper, DFormat.h24]

/-- Modelled from the spec: chrono's `Local.datetime_from_str(s, format)`
(chrono is a dependency, not part of this repository) for the three formats
of `DATE_FORMATS`, per the spec's format list: Year-Month-Day, space,
zero-padded hour:minute, and for the 12-hour forms a space and the
lowercase (`%P`) or uppercase (`%p`) meridiem marker.  The whole slice
must match; the result is the local calendar date and minute. -/
def datetimeFromStr (fmt : DFormat) (s : String) : Option LDate :=
  match fmt with
  | DFormat.h24 => do
    let (y, mo, d, c1) ← readYMD s.data
    let (h, mi, c2) ← readHM c1
    if h ≤ 23 ∧ c2 = [] then some ⟨y, mo, d, h, mi⟩ else none
  | fmt => do
    let (y, mo, d, c1) ← readYMD s.data
    let (h12, mi, c2) ← readHM c1
    let c3 ← expectChar ' ' c2
    let (pm, c4) ← readMeridiem (fmt = DFormat.amUpper) c3
    if 1 ≤ h12 ∧ h12 ≤ 12 ∧ c4 = [] then some ⟨y, mo, d, hour24Of h12 pm, mi⟩
    else none

/-- The `for format in DATE_FORMATS.iter()` loop of `From<&'a str>`: the
first format that parses the slice wins. -/
def firstDateMatch : List DFormat → String → Option LDate
  | [], _ => none
  | f :: fs, s =>
    match datetimeFromStr f s with
    | some d => some d
    | none => firstDateMatch fs s

/-- The final `match s` of `From<&'a str> for Token`: the exact,
case-sensitive operator/keyword table, with the string-literal catch-all. -/
def tableLookup (s : String) : Token :=
  if s = ">=" then Token.GTE
  else if s = "<=" then Token.LTE
  else if s = "^=" then Token.NE
  else if s = "!=" then Token.NE
  else if s = "^^" then Token.NLIKE
  else if s = "!~" then Token.NLIKE
  else if s = "" then Token.EOF
  else if s = "EOF" then Token.EOF
  else if s = "AND" ∨ s = "and" then Token.AND
  else if s = "OR" ∨ s = "or" then Token.OR
  else Token.Str s

/-- The `From<&'a str> for Token` impl: numeric parse first, then the date
formats in order, then the operator/keyword table with its catch-all. -/
def fromStr (s : String) : Token :=
  match parseF64 s with
  | some v => Token.Float v
  | none =>
    match firstDateMatch DATE_FORMATS s with
    | some d => Token.Date d
    | none => tableLookup s

/-- The `Into<String> for Token` impl, the diagnostic rendering.  chrono's
`Display` for `DateTime<Local>` and Rust's `Display` for `f64` are outside
this repository (and the former depends on the machine's zone), so the
payload renderings of `Date` and `Float` are abstracted as the parameters
`showD` and `showF`. -/
def intoString (showD : LDate → String) (showF : FVal → String) : Token → String
  | Token.Str s => "(String, " ++ s ++ ")"
  | Token.Date d => "(Date, " ++ showD d ++ ")"
  | Token.Float v => "(Float, " ++ showF v ++ ")"
  | Token.GT => "(GT, >)"
  | Token.LT => "(LT, <)"
  | Token.GTE => "(GTE, >=)"
  | Token.LTE => "(LTE, <=)"
  | Token.EQ => "(EQ, =)"
  | Token.NE => "(NE, !=)"
  | Token.LIKE => "(LIKE, ~)"
  | Token.NLIKE => "(LIKE, !~)"
  | Token.AND => "(AND, AND)"
  | Token.OR => "(OR, OR)"
  | Token.LP => "(LP, \x27(\x27)"
  | Token.RP => "(RP, \x27)\x27)"
  | Token.EOF => "(EOF, EOF)"
  | Token.Unexpected c => "(Unexpected, " ++ c ++ ")"

/-- The `fmt::Display for Token` impl writes `"Token: {}"` applied to
`self.to_string()`.  `Token` has no inherent `to_string`; the method
resolves to the blanket `impl<T: Display> ToString`, which renders via
this very `Display` impl again, so the rendering is the recursive
equation `display t = "Token: " ++ display t`, which has no base case.
The recursion is embedded with explicit fuel: `displayFuel n t` is the
result after allowing `n` unfoldings, `none` meaning the rendering has
not produced a string yet. -/
def displayFuel : Nat → Token → Option String
  | 0, _ => none
  | n + 1, t => (displayFuel n t).map (fun r => "Token: " ++ r)

/-- Payload-free test used by claims: is a token the `Unexpected` variant. -/
def isUnexpected : Token → Bool
  | Token.Unexpected _ => true
  | _ => false

/-- Payload-free test used by claims: is a token a `Float` literal. -/
def isFloatTok : Token → Bool
  | Token.Float _ => true
  | _ => false

theorem tableLookup_not_float (s : String) : isFloatTok (tableLookup s) = false := by
  unfold tableLookup
  repeat' split
  all_goals rfl

theorem tableLookup_not_unexpected (s : String) : isUnexpected (tableLookup s) = false := by
  unfold tableLookup
  repeat' split
  all_goals rfl

/-- Claim C1: a string that fully parses as a 64-bit float always
classifies as a `Float` token carrying the parsed value, ahead of every
other multi-character rule, while a string of which only a proper prefix
is numeric (such as `5x`) is never a `Float` token. -/
theorem c1_numeric_precedence :
    (∀ (s : String) (v : FVal), parseF64 s = some v → fromStr s = Token.Float v) ∧
    (∀ s : String, parseF64 s = none → isFloatTok (fromStr s) = false) ∧
    parseF64 ("5x") = none ∧ fromStr ("5x") = Token.Str ("5x") := by
  refine ⟨?_, ?_, by decide, by decide⟩
  · intro s v h
    unfold fromStr
    rw [h]
  · intro s h
    unfold fromStr
    rw [h]
    rcases hd : firstDateMatch DATE_FORMATS s with _ | d
    · exact tableLookup_not_float s
    · rfl

theorem c1_numeric_precedence_witness :
    fromStr ("5") = Token.Float (FVal.num 5) ∧ isFloatTok (fromStr ("5x")) = false :=
  ⟨c1_numeric_precedence.1 "5" (FVal.num 5) (by decide),
   c1_numeric_precedence.2.1 "5x" (by decide)⟩

/-- Claim C2: the claim says rendering the display form terminates,
deterministically and without panicking, for every variant.  The code's
`Display` impl calls `self.to_string()`, which is the blanket
`ToString`-via-`Display` method, so the rendering is an unguarded
recursive equation: with any finite amount of unfolding fuel it never
produces a string, on any token — the call overflows the stack instead
of terminating. -/
theorem c2_display_never_terminates :
    ∀ (n : Nat) (t : Token), displayFuel n t = none := by
  intro n
  induction n with
  | zero => intro t; rfl
  | succ k ih =>
    intro t
    simp [displayFuel, ih t]

/-- Claim C3: multi-character classification is total, and every string
the numeric, date and operator/keyword rules all reject comes back as a
string-literal token carrying the input verbatim, never as an error. -/
theorem c3_catchall (s : String)
    (hf : parseF64 s = none) (hd : firstDateMatch DATE_FORMATS s = none)
    (hm : s ∉ ([">=", "<=", "^=", "!=", "^^", "!~", "", "EOF",
                "AND", "and", "OR", "or"] : List String)) :
    fromStr s = Token.Str s := by
  simp only [List.mem_cons, List.not_mem_nil, or_false, not_or] at hm
  obtain ⟨h1, h2, h3, h4, h5, h6, h7, h8, h9, h10, h11, h12⟩ := hm
  unfold fromStr
  rw [hf, hd]
  unfold tableLookup
  simp [h1, h2, h3, h4, h5, h6, h7, h8, h9, h10, h11, h12]

theorem c3_catchall_witness : fromStr ("hello") = Token.Str ("hello") :=
  c3_catchall "hello" (by decide) (by decide) (by decide)

/-- Claim C4: single-character classification maps the six structural
characters (and both like-operator spellings) exactly as listed, and
every other character to `Unexpected` carrying that character's string
form. -/
theorem c4_single_char :
    fromChar '(' = Token.LP ∧ fromChar ')' = Token.RP ∧
    fromChar '>' = Token.GT ∧ fromChar '<' = Token.LT ∧
    fromChar '=' = Token.EQ ∧ fromChar '^' = Token.LIKE ∧
    fromChar '~' = Token.LIKE ∧
    ∀ c : Char, c ∉ (['(', ')', '>', '<', '=', '^', '~'] : List Char) →
      fromChar c = Token.Unexpected (String.mk [c]) := by
  refine ⟨by decide, by decide, by decide, by decide, by decide, by decide, by decide, ?_⟩
  intro c hc
  simp only [List.mem_cons, List.not_mem_nil, or_false, not_or] at hc
  unfold fromChar
  split <;> simp_all

theorem c4_single_char_witness :
    fromChar '%' = Token.Unexpected (String.mk ['%']) :=
  c4_single_char.2.2.2.2.2.2.2 '%' (by decide)

/-- Claim C5: when the numeric parse fails, the classifier tries exactly
the three date-time formats — 12-hour with lowercase am/pm, 12-hour with
uppercase AM/PM, then 24-hour — in that fixed order against the whole
slice; the first full match yields a `Date` token equal to parsing the
string directly with that same format, and when no format matches the
classifier falls through to the operator/keyword/string rules. -/
theorem c5_date_formats_in_order :
    DATE_FORMATS = [DFormat.amLower, DFormat.amUpper, DFormat.h24] ∧
    (∀ (s : String) (d : LDate), parseF64 s = none →
      datetimeFromStr DFormat.amLower s = some d → fromStr s = Token.Date d) ∧
    (∀ (s : String) (d : LDate), parseF64 s = none →
      datetimeFromStr DFormat.amLower s = none →
      datetimeFromStr DFormat.amUpper s = some d → fromStr s = Token.Date d) ∧
    (∀ (s : String) (d : LDate), parseF64 s = none →
      datetimeFromStr DFormat.amLower s = none →
      datetimeFromStr DFormat.amUpper s = none →
      datetimeFromStr DFormat.h24 s = some d → fromStr s = Token.Date d) ∧
    (∀ s : String, parseF64 s = none →
      datetimeFromStr DFormat.amLower s = none →
      datetimeFromStr DFormat.amUpper s = none →
      datetimeFromStr DFormat.h24 s = none → fromStr s = tableLookup s) := by
  refine ⟨rfl, ?_, ?_, ?_, ?_⟩
  · intro s d hf h1
    simp [fromStr, DATE_FORMATS, firstDateMatch, hf, h1]
  · intro s d hf h1 h2
    simp [fromStr, DATE_FORMATS, firstDateMatch, hf, h1, h2]
  · intro s d hf h1 h2 h3
    simp [fromStr, DATE_FORMATS, firstDateMatch, hf, h1, h2, h3]
  · intro s hf h1 h2 h3
    simp [fromStr, DATE_FORMATS, firstDateMatch, hf, h1, h2, h3]

theorem c5_date_formats_in_order_witness :
    fromStr ("2018-07-04 12:00 pm") = Token.Date ⟨2018, 7, 4, 12, 0⟩ ∧
    fromStr ("2018-07-04 12:00 PM") = Token.Date ⟨2018, 7, 4, 12, 0⟩ ∧
    fromStr ("2018-07-04 12:00") = Token.Date ⟨2018, 7, 4, 12, 0⟩ ∧
    fromStr ("hello") = tableLookup ("hello") :=
  ⟨c5_date_formats_in_order.2.1 "2018-07-04 12:00 pm" ⟨2018, 7, 4, 12, 0⟩
      (by decide) (by decide),
   c5_date_formats_in_order.2.2.1 "2018-07-04 12:00 PM" ⟨2018, 7, 4, 12, 0⟩
      (by decide) (by decide) (by decide),
   c5_date_formats_in_order.2.2.2.1 "2018-07-04 12:00" ⟨2018, 7, 4, 12, 0⟩
      (by decide) (by decide) (by decide) (by decide),
   c5_date_formats_in_order.2.2.2.2 "hello"
      (by decide) (by decide) (by decide) (by decide)⟩

/-- Claim C6: the operator/keyword table is exact and case-sensitive:
`AND`/`and` classify as AND and `OR`/`or` as OR, while every other casing
variant of the two keywords classifies as a string literal. -/
theorem c6_keyword_casing :
    fromStr ("AND") = Token.AND ∧ fromStr ("and") = Token.AND ∧
    fromStr ("OR") = Token.OR ∧ fromStr ("or") = Token.OR ∧
    ∀ s ∈ (["ANd", "AnD", "And", "aND", "aNd", "anD",
            "Or", "oR"] : List String), fromStr s = Token.Str s := by
  refine ⟨by decide, by decide, by decide, by decide, ?_⟩
  decide

theorem c6_keyword_casing_witness : fromStr ("aND") = Token.Str ("aND") :=
  c6_keyword_casing.2.2.2.2 "aND" (by decide)

/-- Claim C7 as stated is false: a one-character operator lexeme handed to
multi-character classification is not looked up in the table; `>` as a
text slice classifies as the string literal `>`, not as GT. -/
theorem c7_counterexample :
    fromStr (">") = Token.Str (">") ∧ fromStr (">") ≠ Token.GT := by decide

/-- Claim C7, amended: every multi-character row of the operator lexeme
table classifies via multi-character classification as listed, and
`""`/`"EOF"` classify as EOF; the one-character lexemes classify as string
literals when given as text slices and map to their listed tokens only
through single-character classification. -/
theorem c7_operator_table :
    fromStr (">=") = Token.GTE ∧ fromStr ("<=") = Token.LTE ∧
    fromStr ("!=") = Token.NE ∧ fromStr ("^=") = Token.NE ∧
    fromStr ("!~") = Token.NLIKE ∧ fromStr ("^^") = Token.NLIKE ∧
    fromStr ("AND") = Token.AND ∧ fromStr ("and") = Token.AND ∧
    fromStr ("OR") = Token.OR ∧ fromStr ("or") = Token.OR ∧
    fromStr ("") = Token.EOF ∧ fromStr ("EOF") = Token.EOF ∧
    fromStr (">") = Token.Str (">") ∧ fromStr ("<") = Token.Str ("<") ∧
    fromStr ("=") = Token.Str ("=") ∧ fromStr ("~") = Token.Str ("~") ∧
    fromStr ("^") = Token.Str ("^") ∧ fromStr ("(") = Token.Str ("(") ∧
    fromStr (")") = Token.Str (")") ∧
    fromChar '>' = Token.GT ∧ fromChar '<' = Token.LT ∧
    fromChar '=' = Token.EQ ∧ fromChar '~' = Token.LIKE ∧
    fromChar '^' = Token.LIKE ∧ fromChar '(' = Token.LP ∧
    fromChar ')' = Token.RP := by decide

/-- Claim C8 as stated is false: the NLIKE token does not render with its
own category name — its diagnostic rendering is `(LIKE, !~)`. -/
theorem c8_counterexample :
    intoString (fun _ => "") (fun _ => "") Token.NLIKE = "(LIKE, !~)" ∧
    intoString (fun _ => "") (fun _ => "") Token.NLIKE ≠ "(NLIKE, !~)" := by
  refine ⟨rfl, by decide⟩

/-- Claim C8, amended: every token renders as
`(<CategoryName>, <payload-or-symbol>)` where the category name is the
variant's own name for every variant except NLIKE, which renders with the
category name LIKE (distinguished from LIKE only by its `!~` payload);
the unexpected token renders with category name `Unexpected` and carries
its raw text payload. -/
theorem c8_rendering :
    ∀ (showD : LDate → String) (showF : FVal → String),
    (∀ s, intoString showD showF (Token.Str s) = "(String, " ++ s ++ ")") ∧
    (∀ d, intoString showD showF (Token.Date d) = "(Date, " ++ showD d ++ ")") ∧
    (∀ v, intoString showD showF (Token.Float v) = "(Float, " ++ showF v ++ ")") ∧
    intoString showD showF Token.GT = "(GT, >)" ∧
    intoString showD showF Token.LT = "(LT, <)" ∧
    intoString showD showF Token.GTE = "(GTE, >=)" ∧
    intoString showD showF Token.LTE = "(LTE, <=)" ∧
    intoString showD showF Token.EQ = "(EQ, =)" ∧
    intoString showD showF Token.NE = "(NE, !=)" ∧
    intoString showD showF Token.LIKE = "(LIKE, ~)" ∧
    intoString showD showF Token.NLIKE = "(LIKE, !~)" ∧
    intoString showD showF Token.AND = "(AND, AND)" ∧
    intoString showD showF Token.OR = "(OR, OR)" ∧
    intoString showD showF Token.LP = "(LP, \x27(\x27)" ∧
    intoString showD showF Token.RP = "(RP, \x27)\x27)" ∧
    intoString showD showF Token.EOF = "(EOF, EOF)" ∧
    (∀ c, intoString showD showF (Token.Unexpected c) =
      "(Unexpected, " ++ c ++ ")") := by
  intro showD showF
  exact ⟨fun _ => rfl, fun _ => rfl, fun _ => rfl, rfl, rfl, rfl, rfl, rfl, rfl,
    rfl, rfl, rfl, rfl, rfl, rfl, rfl, fun _ => rfl⟩

/-- Claim C9: the alias spellings classify to equal tokens — `^=` and `!=`
both to NE, `^^` and `!~` both to NLIKE, and the characters `^` and `~`
both to LIKE. -/
theorem c9_alias_equivalence :
    fromStr ("^=") = fromStr ("!=") ∧ fromStr ("^=") = Token.NE ∧
    fromStr ("^^") = fromStr ("!~") ∧ fromStr ("^^") = Token.NLIKE ∧
    fromChar '^' = fromChar '~' ∧ fromChar '^' = Token.LIKE := by decide

/-- Claim C10: multi-character classification never yields the Unexpected
variant, for any input string; the Unexpected token is produced only by
single-character classification (for instance on `%`). -/
theorem c10_no_unexpected :
    (∀ s : String, isUnexpected (fromStr s) = false) ∧
    isUnexpected (fromChar '%') = true := by
  refine ⟨?_, rfl⟩
  intro s
  unfold fromStr
  rcases hf : parseF64 s with _ | v
  · rcases hd : firstDateMatch DATE_FORMATS s with _ | d
    · exact tableLookup_not_unexpected s
    · rfl
  · rfl
